import Mathlib

/-!
Verification of the site-survey core (`lib/survey/src/survey.c`) of the
mynewt-dw1000-core repository.

The module is embedded shallowly: machine integers become `Nat` (with
explicit `% 2 ^ 64` where 64-bit wraparound matters), the per-device
`survey_instance_t` becomes an explicit state record, the mynewt binary
semaphore becomes a `Nat` permit count (0 or 1), radio-driver side effects
become explicit action traces, and the four interrupt-driven completion
callbacks become pure state transformers.  The wire `float` distances are
carried as their 32-bit patterns (`Nat`); the code only copies them, never
computes with them, so copying is exact.
-/

namespace Survey

/-- `FCNTL_IEEE_RANGE_16`: frame-control constant for ranging frames with
16-bit addressing.  Its numeric value comes from the dw1000 driver headers,
not from this module; only its fixed identity matters here. -/
def FCNTL_IEEE_RANGE_16 : Nat := 0x8841

/-- `DWT_SURVEY_BROADCAST`: message-code constant identifying survey
broadcast frames.  Its numeric value comes from the driver headers, not
from this module; only its fixed identity matters here. -/
def DWT_SURVEY_BROADCAST : Nat := 0x23

/-- Modelled from the spec: `sizeof(survey_broadcast_frame_t)` — the byte
size of the fixed header of the broadcast frame (the struct layout lives in
`survey.h`, which is not part of the analysed sources).  Per the spec §6
wire table: 16-bit network id, frame control, destination, source, 8-bit
code, 16-bit cell id, sequence, slot id, and a 32-bit mask — 19 bytes.
No claim depends on the exact value, only on it being a fixed constant. -/
def survey_broadcast_frame_size : Nat := 19

/-- Modelled from the spec: `sizeof(nrng_request_frame_t)` — the byte size
of a ranging request frame, defined by the external ranging service.  Only
its fixed identity matters here. -/
def nrng_request_frame_size : Nat := 18

/-- Telemetry counters of `survey_stat_section` (survey.c lines 79-89). -/
structure SurveyStats where
  request : Nat
  listen : Nat
  rx_unsolicited : Nat
  start_tx_error : Nat
  start_rx_error : Nat
  broadcaster : Nat
  receiver : Nat
  rx_timeout : Nat
  reset : Nat
deriving DecidableEq, Repr

/-- Status flags of `survey_status_t` as used by survey.c. -/
structure SurveyStatus where
  initialized : Bool
  empty : Bool
  start_tx_error : Bool
  start_rx_error : Bool
deriving DecidableEq, Repr

/-- One row of the range matrix (`survey_ranges_t`): a bitmask of populated
peers and the distance values (32-bit float patterns) aligned to its set
bits.  The field layout is modelled from the spec §3 (`survey.h` is not in
the analysed sources). -/
structure SurveyRanges where
  mask : Nat
  ranges : List Nat
deriving DecidableEq, Repr

/-- The broadcast wire frame (`survey_broadcast_frame_t`).  Field set taken
from the uses in survey.c (init lines 117-124, broadcaster lines 320-333,
receive lines 404-420); field layout modelled from the spec §6. -/
structure SurveyBroadcastFrame where
  PANID : Nat
  fctrl : Nat
  dst_address : Nat
  src_address : Nat
  code : Nat
  cell_id : Nat
  seq_num : Nat
  slot_id : Nat
  mask : Nat
  ranges : List Nat
deriving DecidableEq, Repr

/-- The per-device survey session state (`survey_instance_t`), including
the binary completion semaphore `sem` (permit count 0 or 1; `os_sem_init`
at survey.c line 129 starts it at 1 — the rest state). -/
structure SurveyInstance where
  nnodes : Nat
  seq_num : Nat
  sem : Nat
  stat : SurveyStats
  status : SurveyStatus
  ranges : List SurveyRanges
  frame : SurveyBroadcastFrame
  rx_timeout_delay : Nat
deriving DecidableEq, Repr

/-- Receiver-side inputs that the radio driver exposes to `rx_complete_cb`:
the received frame control word (`inst->fctrl`), the device cell identity
(`inst->cell_id`), the received byte count (`inst->frame_len`) and the
decoded receive buffer (`inst->rxbuf`). -/
structure RxInputs where
  fctrl : Nat
  cell_id : Nat
  frame_len : Nat
  rxframe : SurveyBroadcastFrame
deriving DecidableEq, Repr

/-- One popcount step per remaining bit position. -/
def popCountStep : Nat → Nat → Nat
  | 0, _ => 0
  | fuel + 1, m => m % 2 + popCountStep fuel (m / 2)

/-- Modelled from the spec: `NumberOfBits` (population count), a ranging
utility the module calls but which is defined outside the analysed
sources.  Counts the set bits of its `uint32` argument, one loop step per
bit position. -/
def NumberOfBits (m : Nat) : Nat := popCountStep 32 (m % 2 ^ 32)

/-- The reusable outbound frame as `survey_init` builds it (survey.c lines
117-124): fixed header constants, broadcast destination, the node's short
address; every other field — including `cell_id` — is left at the zero the
enclosing `memset`/designated initializer produces. -/
def survey_frame_init (src_address : Nat) : SurveyBroadcastFrame :=
  { PANID := 0xDECA
    fctrl := FCNTL_IEEE_RANGE_16
    dst_address := 0xffff
    src_address := src_address
    code := DWT_SURVEY_BROADCAST
    cell_id := 0
    seq_num := 0
    slot_id := 0
    mask := 0
    ranges := [] }

/-- `rx_complete_cb` (survey.c lines 386-431).  Returns the updated session
state and the handled flag.  The validation chain is translated check by
check; the `memcpy` into `ranges[frame->slot_id]` is modelled — per the
spec §4.4, the struct layouts of `survey.h` being outside the analysed
sources — as storing the frame's mask and distances into that row. -/
def rx_complete_cb (s : SurveyInstance) (rx : RxInputs) :
    SurveyInstance × Bool :=
  if rx.fctrl ≠ FCNTL_IEEE_RANGE_16 then (s, false)
  else if s.sem = 1 then
    -- unsolicited inbound
    ({ s with stat := { s.stat with rx_unsolicited := s.stat.rx_unsolicited + 1 } }, false)
  else if rx.frame_len < survey_broadcast_frame_size then (s, false)
  else if rx.rxframe.dst_address ≠ 0xffff then (s, false)
  else if rx.rxframe.code = DWT_SURVEY_BROADCAST then
    if rx.rxframe.cell_id ≠ rx.cell_id then (s, false)
    else if rx.rxframe.seq_num ≠ s.seq_num then (s, false)
    else
      let n := survey_broadcast_frame_size + s.nnodes * 4
      let s1 :=
        if rx.frame_len ≤ n ∧ rx.rxframe.slot_id < s.nnodes then
          { s with ranges :=
              s.ranges.set rx.rxframe.slot_id ⟨rx.rxframe.mask, rx.rxframe.ranges⟩ }
        else s
      ({ s1 with sem := s1.sem + 1 }, true)
  else (s, false)

/-- `tx_complete_cb` (survey.c lines 441-452): ignores the event when the
semaphore is at rest, otherwise releases it; returns false either way. -/
def tx_complete_cb (s : SurveyInstance) : SurveyInstance × Bool :=
  if s.sem = 1 then (s, false)
  else ({ s with sem := s.sem + 1 }, false)

/-- `rx_timeout_cb` (survey.c lines 462-473): releases the semaphore and
counts a timeout when a permit is outstanding, else ignores the event. -/
def rx_timeout_cb (s : SurveyInstance) : SurveyInstance × Bool :=
  if s.sem = 0 then
    ({ s with
        sem := s.sem + 1
        stat := { s.stat with rx_timeout := s.stat.rx_timeout + 1 } }, true)
  else (s, false)

/-- `reset_cb` (survey.c lines 482-494): releases the semaphore and counts
a reset when a permit is outstanding, else ignores the event; returns
false either way. -/
def reset_cb (s : SurveyInstance) : SurveyInstance × Bool :=
  if s.sem = 0 then
    ({ s with
        sem := s.sem + 1
        stat := { s.stat with reset := s.stat.reset + 1 } }, false)
  else (s, false)

/-- Which phase function a slot callback dispatches to. -/
inductive SurveyPhaseCall where
  | request
  | listen
  | broadcaster
  | receiver
deriving DecidableEq, Repr

/-- The role dispatch of `survey_slot_range_cb` (survey.c lines 221-228):
the node whose slot id equals `ccp_idx % nnodes` runs `survey_request`,
every other node runs `survey_listen`. -/
def survey_slot_range_dispatch (ccp_idx nnodes slot_id : Nat) : SurveyPhaseCall :=
  if ccp_idx % nnodes = slot_id then .request else .listen

/-- The role dispatch of `survey_slot_broadcast_cb` (survey.c lines
262-269): the node whose slot id equals `ccp_idx % nnodes` runs
`survey_broadcaster`, every other node runs `survey_receiver`. -/
def survey_slot_broadcast_dispatch (ccp_idx nnodes slot_id : Nat) : SurveyPhaseCall :=
  if ccp_idx % nnodes = slot_id then .broadcaster else .receiver

/-- The active role's programmed start time (survey.c lines 222 and 263):
the epoch-derived `dx_time` masked with `0xFFFFFFFFFE00`. -/
def survey_active_dx_time (dx_time : Nat) : Nat :=
  dx_time &&& 0xFFFFFFFFFE00

/-- The passive role's programmed start time (survey.c lines 226 and 267):
`dx_time` minus the SHR-duration term in 64-bit arithmetic, masked with
`0xFFFFFFE00`.  `shr_term` stands for the already-shifted
`((uint64_t)ceilf(dw1000_usecs_to_dwt_usecs(dw1000_phy_SHR_duration(..))) << 16)`
value, an opaque input computed by the radio phy layer. -/
def survey_passive_dx_time (dx_time shr_term : Nat) : Nat :=
  ((dx_time % 2 ^ 64 + (2 ^ 64 - shr_term % 2 ^ 64)) % 2 ^ 64) &&& 0xFFFFFFE00

/-- Radio-driver side effects issued by `survey_broadcaster`, in program
order, including its blocking semaphore waits. -/
inductive TxAction where
  | write_tx (len : Nat)
  | write_tx_fctrl (len : Nat)
  | set_delay_start (t : Nat)
  | start_tx
  | sem_pend
deriving DecidableEq, Repr

/-- Radio-driver side effects issued by `survey_listen` and
`survey_receiver`, in program order. -/
inductive RxAction where
  | set_delay_start (t : Nat)
  | set_rx_timeout (t : Nat)
  | nrng_listen
  | start_rx
  | sem_pend
deriving DecidableEq, Repr

/-- The frame population `survey_broadcaster` performs (survey.c lines
320-333): the row's mask, the session sequence number and the sender slot
id are written into the reusable frame, and `NumberOfBits(mask)` distance
values are copied from the row. -/
def encodeBroadcast (f : SurveyBroadcastFrame) (row : SurveyRanges)
    (seq_num slot_id : Nat) : SurveyBroadcastFrame :=
  { f with
      mask := row.mask
      seq_num := seq_num
      slot_id := slot_id
      ranges := row.ranges.take (NumberOfBits row.mask) }

/-- `survey_broadcaster` (survey.c lines 311-351) as a completed execution.
`start_tx_error` is the driver's reply to `dw1000_start_tx`.  `none` models
the `assert(nnodes < survey->nnodes)` abort.  On the successful-transmit
path the second `os_sem_pend` consumes the permit that `tx_complete_cb`
releases and the final `os_sem_release` restores the rest state, so the
semaphore ends at 1. -/
def survey_broadcaster (s : SurveyInstance) (slot_id dx_time : Nat)
    (start_tx_error : Bool) : Option (SurveyInstance × List TxAction) :=
  let sem1 := s.sem - 1
  let stat1 := { s.stat with broadcaster := s.stat.broadcaster + 1 }
  let row := s.ranges.getD slot_id ⟨0, []⟩
  let f1 := { s.frame with
      mask := row.mask
      seq_num := s.seq_num
      slot_id := slot_id }
  let nbits := NumberOfBits f1.mask
  let status1 := { s.status with empty := nbits == 0 }
  if nbits = 0 then
    some ({ s with
        sem := sem1 + 1
        stat := stat1
        frame := f1
        status := status1 }, [.sem_pend])
  else if nbits < s.nnodes then
    let f2 := encodeBroadcast s.frame row s.seq_num slot_id
    let n := survey_broadcast_frame_size + nbits * 4
    let status2 := { status1 with start_tx_error := start_tx_error }
    if start_tx_error then
      some ({ s with
          sem := if sem1 = 0 then sem1 + 1 else sem1
          stat := { stat1 with start_tx_error := stat1.start_tx_error + 1 }
          frame := f2
          status := status2 },
        [.sem_pend, .write_tx n, .write_tx_fctrl n, .set_delay_start dx_time,
         .start_tx])
    else
      some ({ s with
          sem := 1
          stat := stat1
          frame := f2
          status := status2 },
        [.sem_pend, .write_tx n, .write_tx_fctrl n, .set_delay_start dx_time,
         .start_tx, .sem_pend])
  else none

/-- `survey_listen` (survey.c lines 294-308).  `frame_dur` stands for
`dw1000_phy_frame_duration(&inst->attrib, ·)` and `nrng_rx_timeout_delay`
for `inst->nrng->config.rx_timeout_delay`, both owned by external
collaborators.  Returns the updated state and the driver calls in program
order. -/
def survey_listen (s : SurveyInstance) (nrng_rx_timeout_delay : Nat)
    (frame_dur : Nat → Nat) (dx_time : Nat) : SurveyInstance × List RxAction :=
  let stat1 := { s.stat with listen := s.stat.listen + 1 }
  let timeout := frame_dur nrng_request_frame_size + nrng_rx_timeout_delay
  ({ s with stat := stat1 },
   [.set_delay_start dx_time, .set_rx_timeout timeout, .nrng_listen])

/-- The receive timeout that claim C8 attributes to `survey_listen`,
stated from the spec's words: the frame duration of the ranging request
frame size plus the survey session's own configured `rx_timeout_delay`. -/
def listen_timeout_claim (s : SurveyInstance) (frame_dur : Nat → Nat) : Nat :=
  frame_dur nrng_request_frame_size + s.rx_timeout_delay

/-- `survey_receiver` (survey.c lines 353-379) as a completed execution.
`start_rx_error` is the driver's reply to `dw1000_start_rx`.  On the
successful path the second `os_sem_pend` consumes the permit released by a
completion handler and the final release restores rest. -/
def survey_receiver (s : SurveyInstance) (frame_dur : Nat → Nat)
    (start_rx_error : Bool) : SurveyInstance × List RxAction :=
  let sem1 := s.sem - 1
  let stat1 := { s.stat with receiver := s.stat.receiver + 1 }
  let n := survey_broadcast_frame_size + s.nnodes * 4
  let timeout := frame_dur n + s.rx_timeout_delay
  let status1 := { s.status with start_rx_error := start_rx_error }
  if start_rx_error then
    ({ s with
        sem := sem1 + 1
        stat := { stat1 with start_rx_error := stat1.start_rx_error + 1 }
        status := status1 },
     [.sem_pend, .set_rx_timeout timeout, .start_rx])
  else
    ({ s with
        sem := 1
        stat := stat1
        status := status1 },
     [.sem_pend, .set_rx_timeout timeout, .start_rx, .sem_pend])

/-- One asynchronous completion notification delivered by the radio
driver's callback chain. -/
inductive CompletionEvent where
  | rx (inputs : RxInputs)
  | tx
  | timeout
  | reset
deriving DecidableEq, Repr

/-- Dispatch one completion notification to its handler and keep the
resulting session state. -/
def runEvent (s : SurveyInstance) (e : CompletionEvent) : SurveyInstance :=
  match e with
  | .rx i => (rx_complete_cb s i).1
  | .tx => (tx_complete_cb s).1
  | .timeout => (rx_timeout_cb s).1
  | .reset => (reset_cb s).1

/-- Run a sequence of completion notifications. -/
def runEvents (s : SurveyInstance) (es : List CompletionEvent) : SurveyInstance :=
  es.foldl runEvent s

/-! Concrete states used by witnesses and counterexamples. -/

/-- Zeroed telemetry block for the concrete example session. -/
def exStats : SurveyStats := ⟨0, 0, 0, 0, 0, 0, 0, 0, 0⟩

/-- Initialized, error-free status block for the example session. -/
def exStatus : SurveyStatus := ⟨true, false, false, false⟩

/-- A concrete four-node session: sequence number 9, empty rows, the
init-time reusable frame for short address 7, rx_timeout_delay 5, and the
given semaphore count. -/
def exSession (sem : Nat) : SurveyInstance :=
  { nnodes := 4
    seq_num := 9
    sem := sem
    stat := exStats
    status := exStatus
    ranges := [⟨0, []⟩, ⟨0, []⟩, ⟨0, []⟩, ⟨0, []⟩]
    frame := survey_frame_init 7
    rx_timeout_delay := 5 }

/-- A survey broadcast frame that matches the example session's header
expectations (sequence 9) but carries the out-of-range slot id 9. -/
def exRxOobSlot : RxInputs :=
  { fctrl := FCNTL_IEEE_RANGE_16
    cell_id := 0
    frame_len := survey_broadcast_frame_size
    rxframe := { survey_frame_init 7 with
        seq_num := 9
        slot_id := 9 } }

/-- A survey broadcast frame carrying stale sequence number 3 (the example
session is at sequence 9). -/
def exRxStale : RxInputs :=
  { fctrl := FCNTL_IEEE_RANGE_16
    cell_id := 0
    frame_len := survey_broadcast_frame_size
    rxframe := { survey_frame_init 7 with seq_num := 3 } }

/-! Claims. -/

/-- C10: `tx_complete_cb` reports every transmit-complete event as not
handled (returns false) — both when the interlock is at rest and when it
releases an outstanding permit — so downstream interfaces in the callback
chain always observe the event. -/
theorem tx_complete_cb_always_not_handled (s : SurveyInstance) :
    (tx_complete_cb s).2 = false := by
  unfold tx_complete_cb
  split <;> rfl

/-- C4: role assignment is the pure function `ccp_idx % nnodes` of the
cycle index and node count: the slot equal to `ccp_idx % nnodes` — and
only it — dispatches to `survey_request` in the acquisition window and to
`survey_broadcaster` in the aggregation window; every other slot
dispatches to `survey_listen` and `survey_receiver`; and the surveyor slot
is itself a valid slot id, so exactly one node is surveyor per cycle. -/
theorem surveyor_role_unique (ccp_idx nnodes slot_id : Nat)
    (h : 0 < nnodes) :
    (survey_slot_range_dispatch ccp_idx nnodes slot_id = .request ↔
      slot_id = ccp_idx % nnodes) ∧
    (survey_slot_broadcast_dispatch ccp_idx nnodes slot_id = .broadcaster ↔
      slot_id = ccp_idx % nnodes) ∧
    (survey_slot_range_dispatch ccp_idx nnodes slot_id = .listen ↔
      slot_id ≠ ccp_idx % nnodes) ∧
    (survey_slot_broadcast_dispatch ccp_idx nnodes slot_id = .receiver ↔
      slot_id ≠ ccp_idx % nnodes) ∧
    ccp_idx % nnodes < nnodes := by
  unfold survey_slot_range_dispatch survey_slot_broadcast_dispatch
  refine ⟨?_, ?_, ?_, ?_, Nat.mod_lt _ h⟩ <;>
    split <;> simp_all <;> omega

/-- Witness for C4 at the spec's own scenario: node count 4, cycle index
5, surveyor slot 1. -/
theorem surveyor_role_unique_witness :
    (survey_slot_range_dispatch 5 4 1 = .request ↔ 1 = 5 % 4) ∧
    (survey_slot_broadcast_dispatch 5 4 1 = .broadcaster ↔ 1 = 5 % 4) ∧
    (survey_slot_range_dispatch 5 4 1 = .listen ↔ 1 ≠ 5 % 4) ∧
    (survey_slot_broadcast_dispatch 5 4 1 = .receiver ↔ 1 ≠ 5 % 4) ∧
    5 % 4 < 4 :=
  surveyor_role_unique 5 4 1 (by decide)

/-- Each completion handler keeps the permit count at most one. -/
theorem runEvent_sem_le (s : SurveyInstance) (e : CompletionEvent)
    (h : s.sem ≤ 1) : (runEvent s e).sem ≤ 1 := by
  cases e <;>
    simp only [runEvent, rx_complete_cb, tx_complete_cb, rx_timeout_cb, reset_cb] <;>
    split_ifs <;> simp_all <;> omega

/-- C2: the interlock never holds more than one outstanding permit: from
any state with at most one permit, every sequence of completion
notifications (receive-complete, transmit-complete, receive-timeout,
device-reset) keeps the count at most one, and a notification arriving
while the interlock is at rest (count 1) leaves the count unchanged at
1 — each handler tests the permit count before releasing. -/
theorem interlock_single_permit (s : SurveyInstance)
    (es : List CompletionEvent) (h : s.sem ≤ 1) :
    (runEvents s es).sem ≤ 1 ∧
    (s.sem = 1 → ∀ e : CompletionEvent, (runEvent s e).sem = 1) := by
  constructor
  · induction es generalizing s with
    | nil => exact h
    | cons e es ih => exact ih _ (runEvent_sem_le s e h)
  · intro h1 e
    cases e <;>
      simp only [runEvent, rx_complete_cb, tx_complete_cb, rx_timeout_cb, reset_cb] <;>
      split_ifs <;> simp_all

/-- Witness for C2: a resting session, hit by a transmit-complete, a
receive-timeout, a reset and an unsolicited receive, stays at one
permit. -/
theorem interlock_single_permit_witness :
    (runEvents (exSession 1)
      [.tx, .timeout, .reset, .rx exRxStale]).sem ≤ 1 ∧
    ((exSession 1).sem = 1 →
      ∀ e : CompletionEvent, (runEvent (exSession 1) e).sem = 1) :=
  interlock_single_permit (exSession 1) [.tx, .timeout, .reset, .rx exRxStale]
    (by decide)

/-- C7: a receive-complete notification whose frame carries a sequence
number different from the session's current cycle sequence mutates no row
of the range matrix. -/
theorem stale_sequence_leaves_rows_unchanged (s : SurveyInstance)
    (rx : RxInputs) (h : rx.rxframe.seq_num ≠ s.seq_num) :
    (rx_complete_cb s rx).1.ranges = s.ranges := by
  simp only [rx_complete_cb]
  split_ifs <;> simp_all

/-- Witness for C7: a stale frame (sequence 3 against session sequence 9)
leaves the example session's rows untouched. -/
theorem stale_sequence_leaves_rows_unchanged_witness :
    exRxStale.rxframe.seq_num ≠ (exSession 0).seq_num ∧
    (rx_complete_cb (exSession 0) exRxStale).1.ranges = (exSession 0).ranges :=
  ⟨by decide, stale_sequence_leaves_rows_unchanged (exSession 0) exRxStale (by decide)⟩

/-- C1 counterexample: in the example four-node session with an
outstanding receive wait, a frame that passes every header check but
carries the out-of-range slot id 9 is reported as handled and releases the
semaphore — refuting the claim that every protocol validation failure
(including out-of-range slot id and over-long length) leaves the event
unhandled with the interlock untouched. -/
theorem oob_slot_frame_consumes_event :
    (rx_complete_cb (exSession 0) exRxOobSlot).2 = true ∧
    (rx_complete_cb (exSession 0) exRxOobSlot).1.sem ≠ (exSession 0).sem ∧
    exRxOobSlot.rxframe.slot_id ≥ (exSession 0).nnodes := by
  decide

/-- C1 (amended): when an incoming frame fails the frame-control check,
the minimum-length check, the broadcast-destination check, the
message-code check, the cell-identity check, or the sequence-number check,
`rx_complete_cb` ignores it — no row of the range matrix changes, the
event is reported as not handled, and the semaphore is untouched.  (A
frame passing those checks whose length is over-long or whose slot id is
out of range only skips the row copy: the handler still releases the
semaphore and reports the frame handled, per the counterexample.) -/
theorem validation_failure_frame_ignored (s : SurveyInstance) (rx : RxInputs)
    (h : rx.fctrl ≠ FCNTL_IEEE_RANGE_16 ∨
         rx.frame_len < survey_broadcast_frame_size ∨
         rx.rxframe.dst_address ≠ 0xffff ∨
         rx.rxframe.code ≠ DWT_SURVEY_BROADCAST ∨
         rx.rxframe.cell_id ≠ rx.cell_id ∨
         rx.rxframe.seq_num ≠ s.seq_num) :
    (rx_complete_cb s rx).2 = false ∧
    (rx_complete_cb s rx).1.sem = s.sem ∧
    (rx_complete_cb s rx).1.ranges = s.ranges := by
  simp only [rx_complete_cb]
  split_ifs <;> simp_all

/-- Witness for C1 (amended): a stale-sequence frame against the blocked
example session is ignored with the semaphore untouched. -/
theorem validation_failure_frame_ignored_witness :
    exRxStale.rxframe.seq_num ≠ (exSession 0).seq_num ∧
    (rx_complete_cb (exSession 0) exRxStale).2 = false ∧
    (rx_complete_cb (exSession 0) exRxStale).1.sem = (exSession 0).sem ∧
    (rx_complete_cb (exSession 0) exRxStale).1.ranges = (exSession 0).ranges :=
  ⟨by decide,
   validation_failure_frame_ignored (exSession 0) exRxStale
     (by right; right; right; right; right; decide)⟩

/-- C5: when the row mask to broadcast has population count zero,
`survey_broadcaster` issues no transmit action at all — its only effect
trace entry is the initial semaphore wait, so no transmit-buffer write and
no start-tx occur — marks `status.empty`, releases the interlock back to
rest, and returns without error. -/
theorem broadcaster_empty_mask_no_tx (s : SurveyInstance)
    (slot_id dx_time : Nat) (tx_err : Bool) (hsem : s.sem = 1)
    (hmask : NumberOfBits (s.ranges.getD slot_id ⟨0, []⟩).mask = 0) :
    ∃ s1, survey_broadcaster s slot_id dx_time tx_err =
        some (s1, [TxAction.sem_pend]) ∧
      s1.status.empty = true ∧ s1.sem = 1 := by
  simp only [survey_broadcaster, hmask, if_pos]
  exact ⟨_, rfl, by simp, by simp [hsem]⟩

/-- Witness for C5: the example session's rows are all empty, and the
broadcaster for slot 2 completes with an empty status, no transmission,
and the interlock at rest. -/
theorem broadcaster_empty_mask_no_tx_witness :
    (exSession 1).sem = 1 ∧
    NumberOfBits ((exSession 1).ranges.getD 2 ⟨0, []⟩).mask = 0 ∧
    ∃ s1, survey_broadcaster (exSession 1) 2 4096 false =
        some (s1, [TxAction.sem_pend]) ∧
      s1.status.empty = true ∧ s1.sem = 1 :=
  ⟨by decide, by decide,
   broadcaster_empty_mask_no_tx (exSession 1) 2 4096 false (by decide) (by decide)⟩

/-- C6: when `dw1000_start_tx` reports a start-tx error,
`survey_broadcaster` increments the `start_tx_error` counter by exactly
one, sets `status.start_tx_error`, releases the interlock back to rest,
and returns without blocking — its effect trace is exactly the initial
wait, the two transmit-buffer writes, the delayed-start programming and
the failed start-tx, with no second semaphore wait. -/
theorem broadcaster_start_tx_error_releases (s : SurveyInstance)
    (slot_id dx_time : Nat) (hsem : s.sem = 1)
    (h1 : 1 ≤ NumberOfBits (s.ranges.getD slot_id ⟨0, []⟩).mask)
    (h2 : NumberOfBits (s.ranges.getD slot_id ⟨0, []⟩).mask < s.nnodes) :
    ∃ s1, survey_broadcaster s slot_id dx_time true =
        some (s1,
          [TxAction.sem_pend,
           TxAction.write_tx (survey_broadcast_frame_size +
             NumberOfBits (s.ranges.getD slot_id ⟨0, []⟩).mask * 4),
           TxAction.write_tx_fctrl (survey_broadcast_frame_size +
             NumberOfBits (s.ranges.getD slot_id ⟨0, []⟩).mask * 4),
           TxAction.set_delay_start dx_time,
           TxAction.start_tx]) ∧
      s1.stat.start_tx_error = s.stat.start_tx_error + 1 ∧
      s1.status.start_tx_error = true ∧
      s1.sem = 1 := by
  have hne : ¬ NumberOfBits (s.ranges.getD slot_id ⟨0, []⟩).mask = 0 := by omega
  simp only [survey_broadcaster, if_neg hne, if_pos h2]
  exact ⟨_, rfl, by simp, by simp, by simp [hsem]⟩

/-- The example session with row 1 populated: mask 0b101 (peers 0 and 2),
distance words 100 and 200. -/
def exSessionFull (sem : Nat) : SurveyInstance :=
  { exSession sem with ranges := [⟨0, []⟩, ⟨5, [100, 200]⟩, ⟨0, []⟩, ⟨0, []⟩] }

/-- Witness for C6: the populated example session, told that start-tx
failed, counts one start_tx_error, flags it, releases the interlock and
issues no second wait. -/
theorem broadcaster_start_tx_error_releases_witness :
    (exSessionFull 1).sem = 1 ∧
    ∃ s1, survey_broadcaster (exSessionFull 1) 1 4096 true =
        some (s1,
          [TxAction.sem_pend,
           TxAction.write_tx (survey_broadcast_frame_size +
             NumberOfBits ((exSessionFull 1).ranges.getD 1 ⟨0, []⟩).mask * 4),
           TxAction.write_tx_fctrl (survey_broadcast_frame_size +
             NumberOfBits ((exSessionFull 1).ranges.getD 1 ⟨0, []⟩).mask * 4),
           TxAction.set_delay_start 4096,
           TxAction.start_tx]) ∧
      s1.stat.start_tx_error = (exSessionFull 1).stat.start_tx_error + 1 ∧
      s1.status.start_tx_error = true ∧
      s1.sem = 1 :=
  ⟨by decide,
   broadcaster_start_tx_error_releases (exSessionFull 1) 1 4096
     (by decide) (by decide) (by decide)⟩

/-- C8 counterexample: in a session whose own configured rx_timeout_delay
is 5 while the ranging service's is 7 (and frame duration is the constant
100), `survey_listen` programs receive timeout 107 — the nrng figure — and
never the 105 the claim's session-config formula demands. -/
theorem listen_timeout_claim_refuted :
    listen_timeout_claim (exSession 1) (fun _ => 100) = 105 ∧
    (survey_listen (exSession 1) 7 (fun _ => 100) 0).2.contains
      (RxAction.set_rx_timeout 105) = false ∧
    (survey_listen (exSession 1) 7 (fun _ => 100) 0).2.contains
      (RxAction.set_rx_timeout 107) = true := by
  exact ⟨rfl, rfl, rfl⟩

/-- C8 (amended): `survey_listen` computes its receive timeout as the
frame duration of the ranging request frame size plus the *ranging
service's* (nrng) configured rx_timeout_delay — not the survey session's
own config option — and passes it to the radio (set_rx_timeout) before
invoking the blocking listen primitive. -/
theorem listen_timeout_uses_nrng_delay (s : SurveyInstance)
    (nrng_delay : Nat) (frame_dur : Nat → Nat) (dx_time : Nat) :
    (survey_listen s nrng_delay frame_dur dx_time).2 =
      [RxAction.set_delay_start dx_time,
       RxAction.set_rx_timeout (frame_dur nrng_request_frame_size + nrng_delay),
       RxAction.nrng_listen] := rfl

/-- C9 counterexample: at epoch-derived time 2^36 with a zero SHR term the
claim predicts start time `(2^36 - 0) & 0xFFFFFFFFFE00 = 2^36` (the active
role's mask, clearing only the nine low bits), but the passive computation
masks with 0xFFFFFFE00 and yields 0: bit 36 is cleared, so the two roles do
not apply the same granularity mask. -/
theorem passive_mask_differs_from_active :
    survey_passive_dx_time (2 ^ 36) 0 = 0 ∧
    survey_active_dx_time (2 ^ 36 - 0) = 2 ^ 36 ∧
    survey_passive_dx_time (2 ^ 36) 0 ≠ survey_active_dx_time (2 ^ 36 - 0) := by
  decide

/-- The passive mask 0xFFFFFFE00 keeps exactly bits 9 through 35. -/
theorem passive_mask_testBit (i : Nat) :
    (0xFFFFFFE00 : Nat).testBit i = decide (9 ≤ i ∧ i ≤ 35) := by
  rcases lt_or_ge i 36 with h | h
  · interval_cases i <;> decide
  · have hlt : (0xFFFFFFE00 : Nat) < 2 ^ i :=
      lt_of_lt_of_le (by norm_num) (Nat.pow_le_pow_right (by norm_num) h)
    rw [Nat.testBit_lt_two_pow hlt]
    exact (decide_eq_false (by omega)).symm

/-- The active mask 0xFFFFFFFFFE00 keeps exactly bits 9 through 47. -/
theorem active_mask_testBit (i : Nat) :
    (0xFFFFFFFFFE00 : Nat).testBit i = decide (9 ≤ i ∧ i ≤ 47) := by
  rcases lt_or_ge i 48 with h | h
  · interval_cases i <;> decide
  · have hlt : (0xFFFFFFFFFE00 : Nat) < 2 ^ i :=
      lt_of_lt_of_le (by norm_num) (Nat.pow_le_pow_right (by norm_num) h)
    rw [Nat.testBit_lt_two_pow hlt]
    exact (decide_eq_false (by omega)).symm

/-- C9 (amended): the passive role's start time is the 64-bit difference
`dx_time - shr_term` masked with 0xFFFFFFE00, which keeps exactly bits 9
through 35 — clearing the nine low timer-resolution bits AND every bit
above bit 35 — whereas the active role's mask 0xFFFFFFFFFE00 keeps bits 9
through 47; the two masks are not the same. -/
theorem passive_dx_time_bit_characterization (dx shr i : Nat) :
    (survey_passive_dx_time dx shr).testBit i =
      (((dx % 2 ^ 64 + (2 ^ 64 - shr % 2 ^ 64)) % 2 ^ 64).testBit i &&
        decide (9 ≤ i ∧ i ≤ 35)) ∧
    (survey_active_dx_time dx).testBit i =
      (dx.testBit i && decide (9 ≤ i ∧ i ≤ 47)) := by
  constructor
  · rw [survey_passive_dx_time, Nat.testBit_land, passive_mask_testBit]
  · rw [survey_active_dx_time, Nat.testBit_land, active_mask_testBit]

/-- The wire inputs the radio driver presents to a receiver when the
encoded broadcast of `row` (sent by short address `src` from slot
`slot_id` at cycle sequence `seq`) lands: the transmitted frame-control
word, the receiver's cell identity, the transmitted byte count
`sizeof(survey_broadcast_frame_t) + popcount(mask) * 4` (survey.c line
334), and the frame contents. -/
def broadcastRxInputs (row : SurveyRanges) (src slot_id seq cell : Nat) :
    RxInputs :=
  { fctrl := FCNTL_IEEE_RANGE_16
    cell_id := cell
    frame_len := survey_broadcast_frame_size + NumberOfBits row.mask * 4
    rxframe := encodeBroadcast (survey_frame_init src) row seq slot_id }

/-- C3: round-trip.  A row whose mask population count lies between 1 and
node_count - 1, encoded as `survey_broadcaster` does (mask, sequence, slot
id, popcount-many distances over the init-time header) and delivered to
`rx_complete_cb` on a receiver with the same node count — the receiver
holding a matching cycle sequence, the (zero-initialized) cell identity
the encoder transmits, and an outstanding receive wait — is accepted and
reproduces the original mask and distances exactly in the receiver's row
at the sender's slot id. -/
theorem broadcast_roundtrip (r : SurveyInstance) (row : SurveyRanges)
    (src slot_id cell : Nat)
    (hsem : r.sem = 0)
    (hrows : r.ranges.length = r.nnodes)
    (hslot : slot_id < r.nnodes)
    (hbits1 : 1 ≤ NumberOfBits row.mask)
    (hbits2 : NumberOfBits row.mask ≤ r.nnodes - 1)
    (hlen : row.ranges.length = NumberOfBits row.mask)
    (hcell : cell = 0) :
    (rx_complete_cb r (broadcastRxInputs row src slot_id r.seq_num cell)).2 = true ∧
    ((rx_complete_cb r (broadcastRxInputs row src slot_id r.seq_num cell)).1.ranges)[slot_id]? =
      some ⟨row.mask, row.ranges⟩ := by
  subst hcell
  have htake : row.ranges.take (NumberOfBits row.mask) = row.ranges := by
    rw [← hlen]
    exact List.take_length row.ranges
  have hres : rx_complete_cb r (broadcastRxInputs row src slot_id r.seq_num 0) =
      ({ r with
          ranges := r.ranges.set slot_id ⟨row.mask, row.ranges⟩
          sem := r.sem + 1 }, true) := by
    simp only [rx_complete_cb, broadcastRxInputs, encodeBroadcast,
      survey_frame_init, htake]
    split_ifs <;> simp_all <;> omega
  rw [hres]
  refine ⟨rfl, ?_⟩
  exact List.getElem?_set_eq_of_lt _ (hrows ▸ hslot)

/-- Witness for C3: row mask 0b101 with distance words 100 and 200, sent
from slot 1 into the blocked example session, lands intact in row 1. -/
theorem broadcast_roundtrip_witness :
    (exSession 0).sem = 0 ∧
    (rx_complete_cb (exSession 0)
      (broadcastRxInputs ⟨5, [100, 200]⟩ 7 1 (exSession 0).seq_num 0)).2 = true ∧
    ((rx_complete_cb (exSession 0)
      (broadcastRxInputs ⟨5, [100, 200]⟩ 7 1 (exSession 0).seq_num 0)).1.ranges)[1]? =
      some ⟨5, [100, 200]⟩ :=
  ⟨rfl,
   broadcast_roundtrip (exSession 0) ⟨5, [100, 200]⟩ 7 1 0 rfl (by decide)
     (by decide) (by decide) (by decide) (by decide) rfl⟩

end Survey
